import Mathlib

/-!
Verification of the entity and value-object validation core of the
tc-micro-service-1 food-ordering backend (customers, ingredients, products).

The repository tree ships the application layer (use cases, controllers,
gateways) and the full test suite, but the files
src/entities/customer.py, src/entities/ingredient.py, src/entities/product.py
and src/entities/value_objects/{name,email,document,money,sku}.py are absent;
only their imports, tests and callers are present.  Those modules are
therefore modelled here from the specification (spec.md sections 3 and 4),
with the repository's own tests (tests/test_entities.py,
tests/test_phase1_entities.py, tests/test_value_objects*.py) and seed data
(infra/scripts/init_db.py) pinning the behaviour wherever they exercise it.
The use-case layer (src/application/use_cases/customer_use_cases.py) is
present in the tree and is translated directly from that source.

Python exceptions are modelled with an explicit error type: ValidationError
becomes DomainError.validationErr, BusinessRuleError becomes
DomainError.businessRule, and fallible constructors return Except.
In-place mutation (Customer.soft_delete, Product.update) is modelled by
explicit state passing: the function returns the post-call entity state.
-/

/-- Modelled from the spec: the two error kinds of section 7
(ValidationError | BusinessRuleError); the concrete exception classes live in
the missing src/shared module. -/
inductive DomainError where
  | validationErr (msg : String)
  | businessRule (msg : String)
deriving DecidableEq, Repr

deriving instance DecidableEq for Except

/-! ### Character-list helpers (string processing primitives) -/

/-- Split a character list at every occurrence of the separator. -/
def splitOnChar (sep : Char) : List Char → List (List Char)
  | [] => [[]]
  | c :: rest =>
    let r := splitOnChar sep rest
    if c = sep then [] :: r
    else
      match r with
      | [] => [[c]]
      | w :: ws => (c :: w) :: ws

/-- Whitespace test used by trimming (Python str.strip). -/
def isSpaceChar (c : Char) : Bool := c == ' ' || c == '\t' || c == '\n' || c == '\r'

/-- Strip leading and trailing whitespace. -/
def trimChars (l : List Char) : List Char :=
  ((l.dropWhile isSpaceChar).reverse.dropWhile isSpaceChar).reverse

/-- Title-case a single word: first letter upper-cased, rest lower-cased. -/
def capitalizeWord : List Char → List Char
  | [] => []
  | c :: rest => c.toUpper :: rest.map Char.toLower

/-- Join words back together with single spaces. -/
def joinWords : List (List Char) → List Char
  | [] => []
  | [w] => w
  | w :: ws => w ++ ' ' :: joinWords ws

/-- Title-case a character list word by word (Python str.title as used on
names). -/
def titleCaseChars (l : List Char) : List Char :=
  joinWords ((splitOnChar ' ' l).map capitalizeWord)

/-! ### Name value object -/

/-- Modelled from the spec: configurable `max_name_length` of the missing
src/config/app_config.py; the spec fixes no default, any positive bound works
for the claims below. -/
def maxNameLength : Nat := 100

/-- Modelled from the spec: Name value object of the missing
src/entities/value_objects/name.py; stores the validated, title-cased text. -/
structure Name where
  value : String
deriving DecidableEq, Repr

/-- Modelled from the spec: Name.create(raw) trims, rejects empty or
whitespace-only input, rejects length over max_name_length, title-cases. -/
def Name.create (raw : String) : Except DomainError Name :=
  let t := trimChars raw.data
  if t.isEmpty then .error (.validationErr "Name cannot be empty")
  else if t.length > maxNameLength then .error (.validationErr "Name is too long")
  else .ok ⟨String.mk (titleCaseChars t)⟩

/-! ### Email value object -/

/-- Modelled from the spec: Email value object of the missing
src/entities/value_objects/email.py; empty string means unset. -/
structure Email where
  value : String
deriving DecidableEq, Repr

/-- Modelled from the spec: a non-empty email must be local-part@domain with
both parts non-empty and a dot in the domain. -/
def emailFormatOk (s : String) : Bool :=
  match splitOnChar '@' s.data with
  | [lp, dom] => !lp.isEmpty && !dom.isEmpty && dom.contains '.'
  | _ => false

/-- Modelled from the spec: Email.create accepts "" as the unset state and
otherwise validates the shape. -/
def Email.create (raw : String) : Except DomainError Email :=
  if raw.data.isEmpty then .ok ⟨""⟩
  else if emailFormatOk raw then .ok ⟨raw⟩
  else .error (.validationErr "Invalid email format")

/-! ### Document value object (CPF-like tax id) -/

/-- Numeric value of a digit character. -/
def digitVal (c : Char) : Nat := c.toNat - 48

/-- Weighted digit sum with weights w, w-1, w-2, ... -/
def weightedSum : List Nat → Nat → Nat
  | [], _ => 0
  | d :: ds, w => d * w + weightedSum ds (w - 1)

/-- Modelled from the spec: one mod-11 check digit over the given digit
positions, starting from weight w (10 for the first check digit, 11 for the
second). -/
def checkDigit (ds : List Nat) (w : Nat) : Nat :=
  let r := weightedSum ds w % 11
  if r < 2 then 0 else 11 - r

/-- Digits kept after stripping every non-digit character. -/
def cpfDigits (raw : String) : List Char := raw.data.filter Char.isDigit

/-- All characters of the list equal. -/
def allSameChar : List Char → Bool
  | [] => true
  | c :: rest => rest.all (fun x => x == c)

/-- Both check digits of an 11-digit candidate match its last two digits. -/
def cpfCheckOk (digits : List Char) : Bool :=
  let ds := digits.map digitVal
  (ds.getD 9 0 == checkDigit (ds.take 9) 10) && (ds.getD 10 0 == checkDigit (ds.take 10) 11)

/-- Modelled from the spec: Document value object of the missing
src/entities/value_objects/document.py; value is the 11 digits or "". -/
structure Document where
  value : String
deriving DecidableEq, Repr

/-- A document is empty when its stored value is the empty string. -/
def Document.is_empty (d : Document) : Bool := d.value.data.isEmpty

/-- Modelled from the spec: Document.create accepts "" as unset, otherwise
strips non-digits, requires exactly 11 digits, rejects all-identical
sequences, and requires the two mod-11 check digits to match. -/
def Document.create (raw : String) : Except DomainError Document :=
  if raw.data.isEmpty then .ok ⟨""⟩
  else
    let digits := cpfDigits raw
    if digits.length = 11 then
      if allSameChar digits then
        .error (.validationErr "Document cannot be a sequence of identical digits")
      else if cpfCheckOk digits then .ok ⟨String.mk digits⟩
      else .error (.validationErr "Invalid document check digits")
    else .error (.validationErr "Document must contain exactly 11 digits")

/-! ### Money value object -/

/-- Modelled from the spec: Money of the missing
src/entities/value_objects/money.py; decimal amounts are embedded as
rationals. -/
structure Money where
  amount : ℚ
deriving DecidableEq, Repr

/-- A rational has at most 2 fractional digits exactly when its reduced
denominator divides 100. -/
def scaleOk (a : ℚ) : Bool := 100 % a.den == 0

/-- Modelled from the spec: Money construction requires a non-negative amount
with at most 2 decimal places. -/
def Money.create (a : ℚ) : Except DomainError Money :=
  if a < 0 then .error (.validationErr "Money amount cannot be negative")
  else if !scaleOk a then
    .error (.validationErr "Money amount cannot have more than 2 decimal places")
  else .ok ⟨a⟩

/-! ### SKU value object -/

/-- Modelled from the spec: SKU of the missing
src/entities/value_objects/sku.py. -/
structure SKU where
  value : String
deriving DecidableEq, Repr

/-- Modelled from the spec: three dash-separated segments, alphanumeric
prefix, exactly four digits, alphanumeric suffix (e.g. BURG-2024-CLS). -/
def skuFormatOk (s : String) : Bool :=
  match splitOnChar '-' s.data with
  | [p, n, suf] =>
    !p.isEmpty && p.all Char.isAlphanum && n.length == 4 && n.all Char.isDigit &&
      !suf.isEmpty && suf.all Char.isAlphanum
  | _ => false

/-- Modelled from the spec: SKU.create rejects anything not matching the
three-segment pattern (empty input included). -/
def SKU.create (raw : String) : Except DomainError SKU :=
  if skuFormatOk raw then .ok ⟨raw⟩
  else .error (.validationErr "Invalid SKU format")

/-! ### Customer entity -/

/-- Modelled from the spec: the reserved sentinel email of the anonymous
customer (`app_config.anonymous_email`; src/config/app_config.py is missing
and no claim depends on the concrete text). -/
def anonymousEmail : String := "anonymous@system.com"

/-- Modelled from the spec: the scrubbed email placeholder written by
soft_delete, `deleted.<internal_id>@...`. -/
def deletedEmail (cid : Nat) : String := "deleted." ++ toString cid ++ "@deleted.com"

/-- Modelled from the spec: Customer entity of the missing
src/entities/customer.py. -/
structure Customer where
  internal_id : Option Nat
  first_name : Name
  last_name : Name
  email : Email
  document : Document
  is_active : Bool
  is_anonymous : Bool
deriving DecidableEq, Repr

/-- Modelled from the spec: the validating constructor of Customer — an
anonymous customer must carry the sentinel email, a non-anonymous customer a
non-empty one (tests/test_entities.py::test_customer_business_rules_exceptions). -/
def Customer.make (fn ln : Name) (em : Email) (doc : Document)
    (is_active is_anonymous : Bool) (internal_id : Option Nat) :
    Except DomainError Customer :=
  if is_anonymous && !(em.value == anonymousEmail) then
    .error (.validationErr "Anonymous customer must use the anonymous email")
  else if !is_anonymous && em.value.data.isEmpty then
    .error (.validationErr "Non-anonymous customer must have an email")
  else
    .ok { internal_id := internal_id, first_name := fn, last_name := ln,
          email := em, document := doc, is_active := is_active,
          is_anonymous := is_anonymous }

/-- Modelled from the spec: Customer.create_registered builds the value
objects from raw input and constructs an active, non-anonymous customer. -/
def Customer.create_registered (fn ln em doc : String) (internal_id : Option Nat) :
    Except DomainError Customer := do
  let f ← Name.create fn
  let l ← Name.create ln
  let e ← Email.create em
  let d ← Document.create doc
  Customer.make f l e d true false internal_id

/-- Modelled from the spec: Customer.create_anonymous builds the single
sentinel customer with fixed values. -/
def Customer.create_anonymous (internal_id : Option Nat) : Customer :=
  { internal_id := internal_id, first_name := ⟨"Anonymous"⟩,
    last_name := ⟨"Customer"⟩, email := ⟨anonymousEmail⟩, document := ⟨""⟩,
    is_active := true, is_anonymous := true }

/-- Modelled from the spec: can_place_order is true for an active anonymous
customer, or an active customer with non-empty email and non-empty
document. -/
def Customer.can_place_order (c : Customer) : Bool :=
  (c.is_active && c.is_anonymous) ||
    (c.is_active && !c.email.value.data.isEmpty && !c.document.is_empty)

/-- Modelled from the spec: soft_delete guards (inactive, without ID,
anonymous) then scrubs PII and deactivates; in-place mutation is rendered as
returning the post-call state. -/
def Customer.soft_delete (c : Customer) : Except DomainError Customer :=
  if !c.is_active then .error (.businessRule "Cannot delete an inactive customer")
  else
    match c.internal_id with
    | none => .error (.businessRule "Cannot delete a customer without ID")
    | some cid =>
      if c.is_anonymous then
        .error (.businessRule "Cannot delete the anonymous customer")
      else
        .ok { c with is_active := false
                     first_name := ⟨"Deleted"⟩
                     email := ⟨deletedEmail cid⟩
                     document := ⟨""⟩ }

/-! ### Ingredient entity -/

/-- Modelled from the spec: the ingredient type enumeration of the missing
src/entities/ingredient.py. -/
inductive IngredientType where
  | BREAD | MEAT | CHEESE | VEGETABLE | SALAD | SAUCE | ICE | MILK | TOPPING
deriving DecidableEq, Repr

/-- Modelled from the spec: types an `applies_to_burger` flag may combine
with (bread, meat, cheese, vegetable, salad, sauce). -/
def burgerEligible : IngredientType → Bool
  | .BREAD | .MEAT | .CHEESE | .VEGETABLE | .SALAD | .SAUCE => true
  | _ => false

/-- Modelled from the spec and the repository tests: types an
`applies_to_side` flag may combine with.  The spec text lists all six
burger types as side-eligible, but tests/test_entities.py (line 123) requires
`applies_to_side=True` with BREAD to raise, so BREAD is excluded; the seed
data in infra/scripts/init_db.py marks vegetable, salad and sauce as side
ingredients and never marks meat or cheese, which are kept side-eligible only
because the spec says so and no repository evidence contradicts it. -/
def sideEligible : IngredientType → Bool
  | .MEAT | .CHEESE | .VEGETABLE | .SALAD | .SAUCE => true
  | _ => false

/-- Modelled from the spec: types an `applies_to_drink` flag may combine with
(ice, milk). -/
def drinkEligible : IngredientType → Bool
  | .ICE | .MILK => true
  | _ => false

/-- Modelled from the spec: types an `applies_to_dessert` flag may combine
with (topping). -/
def dessertEligible : IngredientType → Bool
  | .TOPPING => true
  | _ => false

/-- Modelled from the spec: Ingredient entity of the missing
src/entities/ingredient.py. -/
structure Ingredient where
  internal_id : Option Nat
  name : Name
  price : Money
  is_active : Bool
  ingredient_type : IngredientType
  applies_to_burger : Bool
  applies_to_side : Bool
  applies_to_drink : Bool
  applies_to_dessert : Bool
deriving DecidableEq, Repr

/-- Modelled from the spec: Ingredient.create validates the name, requires at
least one applies_to flag, and requires every set flag to be compatible with
the ingredient type; incompatible combinations are business-rule errors
naming the offending category. -/
def Ingredient.create (name : String) (price : Money) (is_active : Bool)
    (ingredient_type : IngredientType) (applies_to_burger applies_to_side
    applies_to_drink applies_to_dessert : Bool) (internal_id : Option Nat) :
    Except DomainError Ingredient := do
  let n ← Name.create name
  if !(applies_to_burger || applies_to_side || applies_to_drink || applies_to_dessert) then
    .error (.validationErr "Ingredient must apply to at least one category")
  else if applies_to_burger && !burgerEligible ingredient_type then
    .error (.businessRule "This ingredient type cannot apply to burger")
  else if applies_to_side && !sideEligible ingredient_type then
    .error (.businessRule "This ingredient type cannot apply to side")
  else if applies_to_drink && !drinkEligible ingredient_type then
    .error (.businessRule "This ingredient type cannot apply to drink")
  else if applies_to_dessert && !dessertEligible ingredient_type then
    .error (.businessRule "This ingredient type cannot apply to dessert")
  else
    .ok { internal_id := internal_id, name := n, price := price,
          is_active := is_active, ingredient_type := ingredient_type,
          applies_to_burger := applies_to_burger,
          applies_to_side := applies_to_side,
          applies_to_drink := applies_to_drink,
          applies_to_dessert := applies_to_dessert }

/-! ### Product entity -/

/-- Modelled from the spec: the product category enumeration of the missing
src/entities/product.py. -/
inductive ProductCategory where
  | BURGER | SIDE | DRINK | DESSERT
deriving DecidableEq, Repr

/-- Lower-case category label used in error messages. -/
def categoryName : ProductCategory → String
  | .BURGER => "burger"
  | .SIDE => "side"
  | .DRINK => "drink"
  | .DESSERT => "dessert"

/-- The applies_to flag of an ingredient for a given product category. -/
def appliesTo (i : Ingredient) : ProductCategory → Bool
  | .BURGER => i.applies_to_burger
  | .SIDE => i.applies_to_side
  | .DRINK => i.applies_to_drink
  | .DESSERT => i.applies_to_dessert

/-- Modelled from the spec: the (ingredient, quantity) receipt item pair of
the missing src/entities/product.py. -/
structure ProductReceiptItem where
  ingredient : Ingredient
  quantity : Nat
deriving DecidableEq, Repr

/-- Modelled from the spec: Product entity of the missing
src/entities/product.py. -/
structure Product where
  internal_id : Option Nat
  name : Name
  price : Money
  category : ProductCategory
  sku : SKU
  default_ingredient : List ProductReceiptItem
  is_active : Bool
deriving DecidableEq, Repr

/-- Modelled from the spec: the receipt-item invariant — at least one item
(ValidationError) and every ingredient compatible with the category
(BusinessRuleError naming the category). -/
def Product.validateItems (cat : ProductCategory) (items : List ProductReceiptItem) :
    Except DomainError Unit :=
  if items.isEmpty then
    .error (.validationErr "Product must have at least one ingredient")
  else if items.all (fun it => appliesTo it.ingredient cat) then .ok ()
  else .error (.businessRule ("All ingredients must apply to " ++ categoryName cat))

/-- Modelled from the spec: Product.create validates the name and the receipt
items against the category. -/
def Product.create (name : String) (price : Money) (cat : ProductCategory)
    (sku : SKU) (items : List ProductReceiptItem) (is_active : Bool)
    (internal_id : Option Nat) : Except DomainError Product := do
  let n ← Name.create name
  let _ ← Product.validateItems cat items
  .ok { internal_id := internal_id, name := n, price := price, category := cat,
        sku := sku, default_ingredient := items, is_active := is_active }

/-- Modelled from the spec: Product.update re-runs the full validation
against the new field set before committing; the first component of the
result is the entity state after the call (the old state when validation
failed), the second the raised error, if any. -/
def Product.update (p : Product) (name : String) (price : ℚ)
    (cat : ProductCategory) (sku : String) (items : List ProductReceiptItem) :
    Product × Option DomainError :=
  match (do
    let n ← Name.create name
    let m ← Money.create price
    let k ← SKU.create sku
    let _ ← Product.validateItems cat items
    (.ok { internal_id := p.internal_id, name := n, price := m, category := cat,
           sku := k, default_ingredient := items, is_active := p.is_active } :
      Except DomainError Product)) with
  | .ok p2 => (p2, none)
  | .error e => (p, some e)

/-! ### Customer creation use case
Translated from src/application/use_cases/customer_use_cases.py (present in
the tree): CustomerCreateUseCase.execute builds the entity, checks document
and email uniqueness through the repository, rejects customers that cannot
place orders, and only then saves. -/

/-- Request DTO of CustomerCreateUseCase (src/application/dto, fields as used
by the use case and its tests). -/
structure CustomerCreateRequest where
  first_name : String
  last_name : String
  email : String
  document : String
deriving DecidableEq, Repr

/-- The repository collaborator as seen by CustomerCreateUseCase: the two
existence checks it performs before saving. -/
structure CustomerRepoView where
  exists_by_document : String → Bool
  exists_by_email : String → Bool

/-- Error kinds raised by the customer use cases
(src/application/exceptions): entity errors propagate, uniqueness violations
raise CustomerAlreadyExistsException, the order-eligibility gate raises
CustomerBusinessRuleException. -/
inductive UseCaseError where
  | entity (e : DomainError)
  | alreadyExists (msg : String)
  | businessRule (msg : String)
deriving DecidableEq, Repr

/-- Translated from CustomerCreateUseCase.execute
(src/application/use_cases/customer_use_cases.py, lines 24-77).  The second
component records every customer passed to repository.save, so "save is never
called" is the trace being empty. -/
def CustomerCreateUseCase.execute (repo : CustomerRepoView)
    (req : CustomerCreateRequest) : Except UseCaseError Customer × List Customer :=
  match Customer.create_registered req.first_name req.last_name req.email req.document none with
  | .error e => (.error (.entity e), [])
  | .ok customer =>
    if !customer.document.is_empty && repo.exists_by_document customer.document.value then
      (.error (.alreadyExists ("Customer with document " ++ customer.document.value ++ " already exists")), [])
    else if !customer.email.value.data.isEmpty && repo.exists_by_email customer.email.value then
      (.error (.alreadyExists ("Customer with email " ++ customer.email.value ++ " already exists")), [])
    else if !customer.can_place_order then
      (.error (.businessRule "Customer does not meet requirements to place orders"), [])
    else (.ok customer, [customer])

/-! ### Shared helper lemmas -/

/-- A string has empty character data exactly when it is the empty string. -/
theorem data_isEmpty_eq_false_iff (s : String) : s.data.isEmpty = false ↔ s ≠ "" := by
  cases s with
  | mk data =>
    constructor
    · intro h heq
      rw [heq] at h
      exact absurd h (by decide)
    · intro h
      cases data with
      | nil => exact absurd rfl h
      | cons c cs => rfl


/-! ### Claim theorems -/

/-- C9: every amount a with a ≥ 0 and at most 2 fractional digits round-trips
through Money.create (the stored amount equals the input), while every
negative amount and every amount with more than 2 fractional digits is
rejected with a ValidationError. -/
theorem c9_money_create_roundtrip (a : ℚ) :
    (0 ≤ a → scaleOk a = true → Money.create a = .ok ⟨a⟩) ∧
    (∀ mo, Money.create a = .ok mo → mo.amount = a) ∧
    (a < 0 → Money.create a =
      .error (.validationErr "Money amount cannot be negative")) ∧
    (scaleOk a = false → ∃ m, Money.create a = .error (.validationErr m)) := by
  refine ⟨?_, ?_, ?_, ?_⟩
  · intro h0 hs
    unfold Money.create
    rw [if_neg (not_lt.mpr h0), hs]
    rfl
  · intro mo h
    unfold Money.create at h
    split_ifs at h
    have h2 : ({ amount := a } : Money) = mo := by injection h
    rw [← h2]
  · intro hlt
    unfold Money.create
    rw [if_pos hlt]
  · intro hs
    unfold Money.create
    split_ifs with h1 h2
    · exact ⟨_, rfl⟩
    · exact ⟨_, rfl⟩
    · rw [hs] at h2
      exact absurd rfl h2

/-- C9 witness: the amount 5/2 = 2.50 is non-negative with scale 2 and
round-trips through Money.create. -/
theorem c9_money_create_roundtrip_witness :
    Money.create (mkRat 5 2) = .ok ⟨mkRat 5 2⟩ :=
  (c9_money_create_roundtrip (mkRat 5 2)).1 (by decide) (by decide)

/-- C3: for every raw string whose non-digit-stripped form has exactly 11
digits, Document.create rejects all-identical-digit sequences, accepts the
string exactly when the two mod-11 check digits match its last two digits
(and then the result is non-empty), and rejects it with a ValidationError
when they do not. -/
theorem c3_document_create_spec (raw : String)
    (h11 : (cpfDigits raw).length = 11) :
    (allSameChar (cpfDigits raw) = true →
       Document.create raw =
         .error (.validationErr "Document cannot be a sequence of identical digits")) ∧
    (allSameChar (cpfDigits raw) = false → cpfCheckOk (cpfDigits raw) = true →
       Document.create raw = .ok ⟨String.mk (cpfDigits raw)⟩ ∧
         Document.is_empty ⟨String.mk (cpfDigits raw)⟩ = false) ∧
    (allSameChar (cpfDigits raw) = false → cpfCheckOk (cpfDigits raw) = false →
       Document.create raw = .error (.validationErr "Invalid document check digits")) := by
  have hne : raw.data.isEmpty = false := by
    cases hd : raw.data with
    | nil =>
      exfalso
      unfold cpfDigits at h11
      rw [hd] at h11
      simp at h11
    | cons c cs => rfl
  have hdne : (cpfDigits raw).isEmpty = false := by
    cases hd : cpfDigits raw with
    | nil => rw [hd] at h11; simp at h11
    | cons c cs => rfl
  unfold Document.create
  rw [hne]
  simp only [Bool.false_eq_true, if_false, if_pos h11]
  refine ⟨fun hall => ?_, fun hall hck => ?_, fun hall hck => ?_⟩
  · rw [hall]
    rfl
  · rw [hall, hck]
    refine ⟨rfl, ?_⟩
    unfold Document.is_empty
    exact hdne
  · rw [hall, hck]
    rfl

/-- C3 witness: the valid tax id 529.982.247-25 (punctuation stripped) has 11
digits, distinct digits, matching check digits, and is accepted as a
non-empty document. -/
theorem c3_document_create_spec_witness :
    Document.create "529.982.247-25" = .ok ⟨String.mk (cpfDigits "529.982.247-25")⟩ ∧
      Document.is_empty ⟨String.mk (cpfDigits "529.982.247-25")⟩ = false :=
  ((c3_document_create_spec "529.982.247-25" (by decide)).2.1 (by decide) (by decide))

/-- C4: can_place_order returns true exactly for an active anonymous
customer or an active customer with non-empty email and non-empty document,
and returns false for every inactive customer; it is a pure predicate on the
customer state (modelled as a function, so side-effect freedom holds by
construction). -/
theorem c4_can_place_order_spec (c : Customer) :
    (c.can_place_order = true ↔
       c.is_active = true ∧ (c.is_anonymous = true ∨
         (c.email.value ≠ "" ∧ c.document.is_empty = false))) ∧
    (c.is_active = false → c.can_place_order = false) := by
  constructor
  · unfold Customer.can_place_order
    rw [← data_isEmpty_eq_false_iff]
    cases ha : c.is_active <;> cases hn : c.is_anonymous <;>
      cases he : c.email.value.data.isEmpty <;> cases hd : c.document.is_empty <;>
      simp_all
  · intro h
    unfold Customer.can_place_order
    rw [h]
    rfl

/-- C4 witness: the registered customer Jane Smith (valid email and
document) is active and can place orders. -/
theorem c4_can_place_order_spec_witness :
    Customer.can_place_order
      { internal_id := none
        first_name := ⟨"Jane"⟩
        last_name := ⟨"Smith"⟩
        email := ⟨"jane@x.com"⟩
        document := ⟨"52998224725"⟩
        is_active := true
        is_anonymous := false } = true :=
  (c4_can_place_order_spec _).1.mpr ⟨rfl, Or.inr ⟨by decide, rfl⟩⟩

/-- C2: soft_delete raises a BusinessRuleError naming the guard kind exactly
when the customer is inactive, has no internal id, or is anonymous; otherwise
it returns the customer deactivated with first name "Deleted", the
deleted.<id>@ email placeholder and a cleared document (all other fields
unchanged), and a second soft_delete on that result raises the "inactive"
error rather than being a no-op. -/
theorem c2_soft_delete_spec (c : Customer) :
    (c.is_active = false →
       c.soft_delete = .error (.businessRule "Cannot delete an inactive customer")) ∧
    (c.is_active = true → c.internal_id = none →
       c.soft_delete = .error (.businessRule "Cannot delete a customer without ID")) ∧
    (∀ cid, c.is_active = true → c.internal_id = some cid → c.is_anonymous = true →
       c.soft_delete = .error (.businessRule "Cannot delete the anonymous customer")) ∧
    (∀ cid, c.is_active = true → c.internal_id = some cid → c.is_anonymous = false →
       c.soft_delete = .ok { c with is_active := false
                                    first_name := ⟨"Deleted"⟩
                                    email := ⟨deletedEmail cid⟩
                                    document := ⟨""⟩ } ∧
       Customer.soft_delete { c with is_active := false
                                     first_name := ⟨"Deleted"⟩
                                     email := ⟨deletedEmail cid⟩
                                     document := ⟨""⟩ } =
         .error (.businessRule "Cannot delete an inactive customer")) := by
  refine ⟨?_, ?_, ?_, ?_⟩
  · intro h
    unfold Customer.soft_delete
    rw [h]
    rfl
  · intro ha hid
    unfold Customer.soft_delete
    rw [ha, hid]
    rfl
  · intro cid ha hid han
    unfold Customer.soft_delete
    rw [ha, hid, han]
    rfl
  · intro cid ha hid han
    unfold Customer.soft_delete
    rw [ha, hid, han]
    exact ⟨rfl, rfl⟩

/-- C2 witness: an active, registered customer with id 10 is soft-deleted to
the scrubbed state, and deleting again raises the "inactive" error. -/
theorem c2_soft_delete_spec_witness :
    Customer.soft_delete
        { internal_id := some 10
          first_name := ⟨"John"⟩
          last_name := ⟨"Doe"⟩
          email := ⟨"john.doe@example.com"⟩
          document := ⟨"52998224725"⟩
          is_active := true
          is_anonymous := false } =
      .ok { internal_id := some 10
            first_name := ⟨"Deleted"⟩
            last_name := ⟨"Doe"⟩
            email := ⟨deletedEmail 10⟩
            document := ⟨""⟩
            is_active := false
            is_anonymous := false } ∧
    Customer.soft_delete
        { internal_id := some 10
          first_name := ⟨"Deleted"⟩
          last_name := ⟨"Doe"⟩
          email := ⟨deletedEmail 10⟩
          document := ⟨""⟩
          is_active := false
          is_anonymous := false } =
      .error (.businessRule "Cannot delete an inactive customer") :=
  (c2_soft_delete_spec
    { internal_id := some 10
      first_name := ⟨"John"⟩
      last_name := ⟨"Doe"⟩
      email := ⟨"john.doe@example.com"⟩
      document := ⟨"52998224725"⟩
      is_active := true
      is_anonymous := false }).2.2.2 10 rfl rfl rfl

/-- C7: with applies_to_drink set, Ingredient.create succeeds for the drink
eligible types ICE and MILK (other flags off, valid name and price) and
raises a BusinessRuleError for every other ingredient type. -/
theorem c7_ingredient_drink_flag (name : String) (n : Name) (price : Money)
    (t : IngredientType) (hn : Name.create name = .ok n) :
    ((t = .ICE ∨ t = .MILK) →
       Ingredient.create name price true t false false true false none =
         .ok { internal_id := none
               name := n
               price := price
               is_active := true
               ingredient_type := t
               applies_to_burger := false
               applies_to_side := false
               applies_to_drink := true
               applies_to_dessert := false }) ∧
    (t ≠ .ICE → t ≠ .MILK →
       Ingredient.create name price true t false false true false none =
         .error (.businessRule "This ingredient type cannot apply to drink")) := by
  unfold Ingredient.create
  rw [hn]
  constructor
  · rintro (rfl | rfl) <;> rfl
  · intro h1 h2
    cases t <;> first | rfl | exact absurd rfl h1 | exact absurd rfl h2

/-- C7 witness: an ICE ingredient with only the drink flag is accepted. -/
theorem c7_ingredient_drink_flag_witness :
    Ingredient.create "Ice Cubes" ⟨mkRat 1 10⟩ true .ICE false false true false none =
      .ok { internal_id := none
            name := ⟨"Ice Cubes"⟩
            price := ⟨mkRat 1 10⟩
            is_active := true
            ingredient_type := .ICE
            applies_to_burger := false
            applies_to_side := false
            applies_to_drink := true
            applies_to_dessert := false } :=
  (c7_ingredient_drink_flag "Ice Cubes" ⟨"Ice Cubes"⟩ ⟨mkRat 1 10⟩ .ICE (by decide)).1
    (Or.inl rfl)

/-- C1 counterexample: BREAD with applies_to_side set and otherwise valid
fields is rejected by Ingredient.create with a BusinessRuleError, although
the claim lists BREAD among the side-eligible types
(tests/test_entities.py line 123 pins this rejection). -/
theorem c1_bread_side_counterexample :
    Ingredient.create "Bun" ⟨mkRat 5 2⟩ true .BREAD false true false false none =
      .error (.businessRule "This ingredient type cannot apply to side") := by decide

/-- C1 amended: with applies_to_side set and otherwise valid fields,
Ingredient.create succeeds for every type in {MEAT, CHEESE, VEGETABLE, SALAD,
SAUCE}, while BREAD is rejected with a BusinessRuleError. -/
theorem c1_side_eligibility_amended (name : String) (n : Name) (price : Money)
    (hn : Name.create name = .ok n) :
    (∀ t, (t = IngredientType.MEAT ∨ t = IngredientType.CHEESE ∨
           t = IngredientType.VEGETABLE ∨ t = IngredientType.SALAD ∨
           t = IngredientType.SAUCE) →
       Ingredient.create name price true t false true false false none =
         .ok { internal_id := none
               name := n
               price := price
               is_active := true
               ingredient_type := t
               applies_to_burger := false
               applies_to_side := true
               applies_to_drink := false
               applies_to_dessert := false }) ∧
    (Ingredient.create name price true .BREAD false true false false none =
       .error (.businessRule "This ingredient type cannot apply to side")) := by
  unfold Ingredient.create
  rw [hn]
  constructor
  · rintro t (rfl | rfl | rfl | rfl | rfl) <;> rfl
  · rfl

/-- C1 amended witness: a SALAD ingredient with only the side flag is
accepted. -/
theorem c1_side_eligibility_amended_witness :
    Ingredient.create "Mixed Greens" ⟨mkRat 1 1⟩ true .SALAD false true false false none =
      .ok { internal_id := none
            name := ⟨"Mixed Greens"⟩
            price := ⟨mkRat 1 1⟩
            is_active := true
            ingredient_type := .SALAD
            applies_to_burger := false
            applies_to_side := true
            applies_to_drink := false
            applies_to_dessert := false } :=
  (c1_side_eligibility_amended "Mixed Greens" ⟨"Mixed Greens"⟩ ⟨mkRat 1 1⟩ (by decide)).1
    .SALAD (Or.inr (Or.inr (Or.inr (Or.inl rfl))))

/-- C5: a DRINK product whose receipt list contains an ingredient without the
drink flag is rejected by Product.create with a BusinessRuleError whose
message names the category ("...apply to drink"); in general a successfully
constructed product has every ingredient's applies_to flag set for its
category. -/
theorem c5_product_drink_compat (name : String) (n : Name) (price : Money)
    (sku : SKU) (items : List ProductReceiptItem) (act : Bool) (iid : Option Nat)
    (hn : Name.create name = .ok n) :
    ((∃ it ∈ items, appliesTo it.ingredient .DRINK = false) →
       Product.create name price .DRINK sku items act iid =
         .error (.businessRule "All ingredients must apply to drink")) ∧
    (∀ cat p, Product.create name price cat sku items act iid = .ok p →
       items.all (fun it => appliesTo it.ingredient cat) = true) := by
  constructor
  · rintro ⟨it, hmem, hfalse⟩
    have hie : items.isEmpty = false := by
      cases items with
      | nil => cases hmem
      | cons a l => rfl
    have hall : items.all (fun i2 => appliesTo i2.ingredient .DRINK) = false := by
      cases h : items.all (fun i2 => appliesTo i2.ingredient .DRINK) with
      | false => rfl
      | true =>
        have h2 := List.all_eq_true.mp h it hmem
        rw [hfalse] at h2
        exact absurd h2 Bool.false_ne_true
    unfold Product.create Product.validateItems
    rw [hn, hie, hall]
    rfl
  · intro cat p hok
    cases hall : items.all (fun i2 => appliesTo i2.ingredient cat) with
    | true => rfl
    | false =>
      exfalso
      unfold Product.create Product.validateItems at hok
      rw [hn, hall] at hok
      cases hie : items.isEmpty with
      | true =>
        rw [hie] at hok
        exact nomatch hok
      | false =>
        rw [hie] at hok
        exact nomatch hok

/-- C5 witness: a DRINK product whose only receipt item is a burger-only
BREAD ingredient is rejected with the "apply to drink" business-rule
error. -/
theorem c5_product_drink_compat_witness :
    Product.create "Juice" ⟨mkRat 5 1⟩ .DRINK ⟨"DRK-1234-AAA"⟩
        [⟨{ internal_id := none
            name := ⟨"Bun"⟩
            price := ⟨mkRat 5 2⟩
            is_active := true
            ingredient_type := .BREAD
            applies_to_burger := true
            applies_to_side := false
            applies_to_drink := false
            applies_to_dessert := false }, 1⟩] true none =
      .error (.businessRule "All ingredients must apply to drink") :=
  (c5_product_drink_compat "Juice" ⟨"Juice"⟩ ⟨mkRat 5 1⟩ ⟨"DRK-1234-AAA"⟩
      _ true none (by decide)).1
    ⟨_, List.mem_singleton.mpr rfl, rfl⟩

/-- C8: with a valid name and otherwise arbitrary fields, Product.create on
an empty default_ingredient list always raises a ValidationError; with at
least one receipt item, all compatible with the category, it succeeds. -/
theorem c8_product_items_required (name : String) (n : Name) (price : Money)
    (cat : ProductCategory) (sku : SKU) (act : Bool) (iid : Option Nat)
    (hn : Name.create name = .ok n) :
    (Product.create name price cat sku [] act iid =
       .error (.validationErr "Product must have at least one ingredient")) ∧
    (∀ items, items ≠ [] →
       items.all (fun it => appliesTo it.ingredient cat) = true →
       Product.create name price cat sku items act iid =
         .ok { internal_id := iid
               name := n
               price := price
               category := cat
               sku := sku
               default_ingredient := items
               is_active := act }) := by
  constructor
  · unfold Product.create Product.validateItems
    rw [hn]
    rfl
  · intro items hne hall
    have hie : items.isEmpty = false := by
      cases items with
      | nil => exact absurd rfl hne
      | cons a l => rfl
    unfold Product.create Product.validateItems
    rw [hn, hie, hall]
    rfl

/-- C8 witness: a BURGER product with one compatible receipt item is
constructed, and with the empty list it is rejected. -/
theorem c8_product_items_required_witness :
    Product.create "Prod" ⟨mkRat 10 1⟩ .BURGER ⟨"SKU-0001-ABC"⟩ [] true none =
      .error (.validationErr "Product must have at least one ingredient") :=
  (c8_product_items_required "Prod" ⟨"Prod"⟩ ⟨mkRat 10 1⟩ .BURGER ⟨"SKU-0001-ABC"⟩
      true none (by decide)).1

/-- C6: Product.update is atomic — when the re-validation of the new field
set fails the entity state is exactly the old product (no field mutated),
and when it succeeds every field reflects the new, fully re-validated
values (identity and activity preserved). -/
theorem c6_product_update_atomic (p : Product) (name : String) (price : ℚ)
    (cat : ProductCategory) (sku : String) (items : List ProductReceiptItem) :
    (∀ e, (p.update name price cat sku items).2 = some e →
       (p.update name price cat sku items).1 = p) ∧
    ((p.update name price cat sku items).2 = none →
       ∃ n m k, Name.create name = .ok n ∧ Money.create price = .ok m ∧
         SKU.create sku = .ok k ∧ Product.validateItems cat items = .ok () ∧
         (p.update name price cat sku items).1 =
           { internal_id := p.internal_id
             name := n
             price := m
             category := cat
             sku := k
             default_ingredient := items
             is_active := p.is_active }) := by
  unfold Product.update
  cases hn : Name.create name with
  | error e => exact ⟨fun _ _ => rfl, fun h => nomatch h⟩
  | ok n =>
    cases hm : Money.create price with
    | error e => exact ⟨fun _ _ => rfl, fun h => nomatch h⟩
    | ok m =>
      cases hk : SKU.create sku with
      | error e => exact ⟨fun _ _ => rfl, fun h => nomatch h⟩
      | ok k =>
        cases hv : Product.validateItems cat items with
        | error e => exact ⟨fun _ _ => rfl, fun h => nomatch h⟩
        | ok u =>
          cases u
          constructor
          · intro e h
            exact nomatch h
          · intro _
            exact ⟨n, m, k, rfl, rfl, rfl, rfl, rfl⟩

/-- C6 witness: updating a valid product with an invalid SKU string fails
and leaves every field of the product unchanged. -/
theorem c6_product_update_atomic_witness :
    (Product.update
        { internal_id := some 1
          name := ⟨"Prod"⟩
          price := ⟨mkRat 10 1⟩
          category := .BURGER
          sku := ⟨"SKU-0001-ABC"⟩
          default_ingredient := [⟨{ internal_id := none
                                    name := ⟨"Bun"⟩
                                    price := ⟨mkRat 5 2⟩
                                    is_active := true
                                    ingredient_type := .BREAD
                                    applies_to_burger := true
                                    applies_to_side := false
                                    applies_to_drink := false
                                    applies_to_dessert := false }, 1⟩]
          is_active := true }
        "Novo" (mkRat 20 1) .SIDE "INVALID" []).1 =
      { internal_id := some 1
        name := ⟨"Prod"⟩
        price := ⟨mkRat 10 1⟩
        category := .BURGER
        sku := ⟨"SKU-0001-ABC"⟩
        default_ingredient := [⟨{ internal_id := none
                                  name := ⟨"Bun"⟩
                                  price := ⟨mkRat 5 2⟩
                                  is_active := true
                                  ingredient_type := .BREAD
                                  applies_to_burger := true
                                  applies_to_side := false
                                  applies_to_drink := false
                                  applies_to_dessert := false }, 1⟩]
        is_active := true } :=
  (c6_product_update_atomic _ "Novo" (mkRat 20 1) .SIDE "INVALID" []).1
    (.validationErr "Invalid SKU format") (by decide)

/-- C10: in the customer creation use case, when entity construction and
both repository uniqueness checks pass but the constructed customer cannot
place orders, execute raises CustomerBusinessRuleException and
repository.save is never called (the save trace is empty) — no customer
unable to place orders is persisted through creation. -/
theorem c10_create_use_case_order_gate (repo : CustomerRepoView)
    (req : CustomerCreateRequest) (c : Customer)
    (hc : Customer.create_registered req.first_name req.last_name req.email
            req.document none = .ok c)
    (hdoc : c.document.is_empty = true ∨
      repo.exists_by_document c.document.value = false)
    (hmail : c.email.value.data.isEmpty = true ∨
      repo.exists_by_email c.email.value = false)
    (horder : c.can_place_order = false) :
    CustomerCreateUseCase.execute repo req =
      (.error (.businessRule "Customer does not meet requirements to place orders"), []) := by
  unfold CustomerCreateUseCase.execute
  rw [hc]
  have h1 : (!c.document.is_empty && repo.exists_by_document c.document.value) = false := by
    rcases hdoc with h | h <;> rw [h] <;> simp
  have h2 : (!c.email.value.data.isEmpty && repo.exists_by_email c.email.value) = false := by
    rcases hmail with h | h <;> rw [h] <;> simp
  dsimp only
  rw [h1, h2, horder]
  rfl

/-- C10 witness: a request with a valid name and email but no document
builds a customer that cannot place orders; with a repository reporting no
duplicates, execute raises the business-rule error and saves nothing. -/
theorem c10_create_use_case_order_gate_witness :
    CustomerCreateUseCase.execute ⟨fun _ => false, fun _ => false⟩
        ⟨"Jane", "Smith", "jane@x.com", ""⟩ =
      (.error (.businessRule "Customer does not meet requirements to place orders"), []) :=
  c10_create_use_case_order_gate ⟨fun _ => false, fun _ => false⟩
    ⟨"Jane", "Smith", "jane@x.com", ""⟩
    { internal_id := none
      first_name := ⟨"Jane"⟩
      last_name := ⟨"Smith"⟩
      email := ⟨"jane@x.com"⟩
      document := ⟨""⟩
      is_active := true
      is_anonymous := false }
    (by decide) (Or.inl (by decide)) (Or.inr rfl) (by decide)
